import Mathlib

/-!
Shallow embedding of the api-smtp email gateway (`main.py`,
`src/app/email_receiver.py`, `src/app/mcp_server.py`) and proofs about it.

Conventions of the embedding:
* Python strings are Lean `String`s; `str.lower()` is `lowerStr`,
  per-character ASCII lowering (the keywords and queries of interest are
  ASCII).
* Python's `needle in haystack` substring test is `infixOfL` on the
  character lists, proved equivalent to Mathlib's `List.IsInfix`.
* Fallible I/O (SMTP send, MinIO get/put/list, HTTP fetches) is driven by
  explicit environment records; a raised exception is `Except.error`,
  and a Python `try/except` that swallows the error is an explicit
  `match` on that `Except`.
* MinIO object storage is a list of objects with upsert-by-name puts
  (`put_object` on an existing key overwrites it).  JSON (de)serialization
  is abstracted: an object either parses back to its record
  (`parsed = some r`) or does not (`parsed = none`, covering both
  unparseable payloads and per-object fetch errors, which the code
  treats identically by skipping the object).
-/

namespace ApiSmtp

/-- Python `needle in haystack` on character lists: `needle` occurs
contiguously somewhere in the list. -/
def infixOfL (needle : List Char) : List Char → Bool
  | [] => needle.isPrefixOf []
  | c :: rest => needle.isPrefixOf (c :: rest) || infixOfL needle rest

/-- Python `needle in haystack` on strings. -/
def strContains (haystack needle : String) : Bool :=
  infixOfL needle.data haystack.data

/-- Python `str.lower()`: per-character lowering (ASCII). -/
def lowerStr (s : String) : String :=
  String.mk (s.data.map Char.toLower)

/-! ## Priority heuristic: `MCPEmailSystem._estimate_priority` (mcp_server.py, lines 132-148) -/

/-- The high-priority keyword list of `_estimate_priority`. -/
def high_priority_keywords : List String :=
  ["urgente", "urgent", "crítico", "critical", "emergência", "emergency",
   "imediato", "immediate"]

/-- The medium-priority keyword list of `_estimate_priority`. -/
def medium_priority_keywords : List String :=
  ["importante", "important", "atenção", "attention", "revisar", "review"]

/-- The heuristic `MCPEmailSystem._estimate_priority`: lowercases subject and text, then
cascades over the two keyword lists. -/
def estimate_priority (subject text : String) : String :=
  let subjectL := (lowerStr subject)
  let textL := (lowerStr text)
  if high_priority_keywords.any
      (fun k => strContains subjectL k || strContains textL k) then "high"
  else if medium_priority_keywords.any
      (fun k => strContains subjectL k || strContains textL k) then "medium"
  else "normal"

/-- The spec-level occurrence predicate: some keyword of `ks` occurs as a
substring of the lowercased subject or lowercased body. -/
def keywordHits (ks : List String) (subject text : String) : Prop :=
  ∃ k ∈ ks,
    k.data <:+: (lowerStr subject).data ∨ k.data <:+: (lowerStr text).data

instance (ks : List String) (subject text : String) :
    Decidable (keywordHits ks subject text) := by
  unfold keywordHits; infer_instance

/-! ## Outbound path: MIME assembly (`main.py` `add_attachment`, lines 86-108)

`mimetypes.guess_type` is modelled by a finite table restricted to
representative extensions of Python's `mimetypes` module; every extension
outside the table guesses no type, exactly as Python returns `(None, None)`
for unknown extensions such as `.bin`. -/

/-- Split a character list at every occurrence of `c` (Python `s.split(c)`),
with an accumulator for the current chunk. -/
def splitOnCharAux (c : Char) : List Char → List Char → List (List Char)
  | [], acc => [acc.reverse]
  | x :: xs, acc =>
    if x = c then acc.reverse :: splitOnCharAux c xs []
    else splitOnCharAux c xs (x :: acc)

/-- Python `s.split(c)` on character lists. -/
def splitOnChar (c : Char) (l : List Char) : List (List Char) :=
  splitOnCharAux c l []

/-- The characters after the first occurrence of `c`
(Python `s.split(c, 1)[1]`); `none` when `c` does not occur. -/
def afterChar (c : Char) : List Char → Option (List Char)
  | [] => none
  | x :: xs => if x = c then some xs else afterChar c xs

/-- The characters before the first occurrence of `c`
(Python `s.split(c, 1)[0]`). -/
def beforeChar (c : Char) : List Char → List Char
  | [] => []
  | x :: xs => if x = c then [] else x :: beforeChar c xs

/-- The lowercased extension (including the dot) of a filename: everything
from the last `.` on; `none` when the name has no dot. -/
def extOf (filename : String) : Option String :=
  let parts := splitOnChar '.' filename.data
  if parts.length ≤ 1 then none
  else some ("." ++ String.mk ((parts.getLastD []).map Char.toLower))

/-- Restriction of Python's `mimetypes.types_map` to representative
extensions; unknown extensions (e.g. `.bin`) map to `none`. -/
def types_map (ext : String) : Option String :=
  if ext = ".txt" then some "text/plain"
  else if ext = ".html" then some "text/html"
  else if ext = ".csv" then some "text/csv"
  else if ext = ".png" then some "image/png"
  else if ext = ".jpg" then some "image/jpeg"
  else if ext = ".jpeg" then some "image/jpeg"
  else if ext = ".gif" then some "image/gif"
  else if ext = ".mp3" then some "audio/mpeg"
  else if ext = ".wav" then some "audio/x-wav"
  else if ext = ".pdf" then some "application/pdf"
  else if ext = ".json" then some "application/json"
  else if ext = ".zip" then some "application/zip"
  else none

/-- Restriction of Python's `mimetypes.encodings_map` (suffixes denoting a
transfer encoding such as `.gz`). -/
def encodings_map (ext : String) : Option String :=
  if ext = ".gz" then some "gzip"
  else if ext = ".bz2" then some "bzip2"
  else none

/-- Model of `mimetypes.guess_type(filename)`: returns `(type?, encoding?)`.  A known
encoding suffix is stripped first and reported as the encoding, with the
type guessed from the remaining extension. -/
def guess_type (filename : String) : Option String × Option String :=
  match extOf filename with
  | none => (none, none)
  | some ext =>
    match encodings_map ext with
    | some enc =>
      let stem := String.mk
        (filename.data.take (filename.data.length - ext.data.length))
      match extOf stem with
      | none => (none, some enc)
      | some ext2 => (types_map ext2, some enc)
    | none => (types_map ext, none)

/-- One part of the assembled multipart message.  The constructor records
which `email.mime` class built the part; `basePart` carries the
`Content-Transfer-Encoding` applied by `encoders.encode_base64`. -/
inductive MimePart where
  | textPart (subtype : String) (content : String) (filenameHdr : Option String)
  | imagePart (subtype : String) (content : String) (filenameHdr : Option String)
  | audioPart (subtype : String) (content : String) (filenameHdr : Option String)
  | basePart (maintype subtype : String) (content : String)
      (transferEncoding : String) (filenameHdr : Option String)
deriving Repr, DecidableEq

/-- The object-storage read interface used by `add_attachment`
(`minio_client.get_object`): `none` means the fetch raises `S3Error`.
Object payloads are modelled as strings. -/
def FetchFn := String → Option String

/-- The function `add_attachment(object_name)` (`main.py`, lines 86-108): fetch the staged
object, recover the original filename after the first `_`, guess the content
type, and build the MIME part; unknown or encoded types fall back to a
base64-encoded `MIMEBase(maintype, subtype)` with `application/octet-stream`.
An `S3Error` from the fetch (or a malformed object name without `_`)
propagates as `Except.error`. -/
def add_attachment (fetch : FetchFn) (object_name : String) :
    Except String MimePart :=
  match fetch object_name with
  | none => .error ("S3Error: " ++ object_name)
  | some file_content =>
    match afterChar '_' object_name.data with
    | none => .error "IndexError"
    | some fnChars =>
      let filename := String.mk fnChars
      let ctype := match guess_type filename with
        | (some t, none) => t
        | _ => "application/octet-stream"
      let maintype := String.mk (beforeChar '/' ctype.data)
      let subtype := String.mk ((afterChar '/' ctype.data).getD [])
      if maintype = "text" then
        .ok (.textPart subtype file_content (some filename))
      else if maintype = "image" then
        .ok (.imagePart subtype file_content (some filename))
      else if maintype = "audio" then
        .ok (.audioPart subtype file_content (some filename))
      else
        .ok (.basePart maintype subtype file_content "base64" (some filename))

/-- The outbound request (`EmailRequest` pydantic model in `main.py`). -/
structure EmailRequest where
  recipient_email : String
  subject : String
  body : String
  debug : Bool
deriving Repr, DecidableEq

/-- Message assembly inside `send_email_task` (lines 112-125): a plain-text
body part followed by one part per non-`None` staged attachment name, in
input order; an attachment error propagates (and is later caught by the
task's generic handler). -/
def attachParts (fetch : FetchFn) :
    List (Option String) → Except String (List MimePart)
  | [] => .ok []
  | none :: rest => attachParts fetch rest
  | some object_name :: rest =>
    match add_attachment fetch object_name with
    | .error e => .error e
    | .ok p =>
      match attachParts fetch rest with
      | .error e => .error e
      | .ok ps => .ok (p :: ps)

def assembleParts (fetch : FetchFn) (req : EmailRequest)
    (attachment_names : List (Option String)) :
    Except String (List MimePart) :=
  (attachParts fetch attachment_names).map
    (fun ps => MimePart.textPart "plain" req.body none :: ps)

/-! ## Outbound path: failure classification and result persistence
(`main.py` `save_email_result` lines 42-59, `send_email_task` lines 110-160) -/

/-- The exception classes distinguished by `send_email_task`'s handlers, in
handler order.  `smtpOther` is any other `smtplib.SMTPException`;
`unexpected` is any other `Exception`. -/
inductive SmtpErr where
  | authError
  | connectError
  | recipientsRefused
  | senderRefused
  | dataError
  | smtpOther (msg : String)
  | unexpected (msg : String)
deriving Repr, DecidableEq

/-- The failure class of an exception, forgetting its payload. -/
def errClass : SmtpErr → Nat
  | .authError => 0
  | .connectError => 1
  | .recipientsRefused => 2
  | .senderRefused => 3
  | .dataError => 4
  | .smtpOther _ => 5
  | .unexpected _ => 6

/-- The detail string `send_email_task` records for each failure class
(lines 147-160). -/
def detailOf : SmtpErr → String
  | .authError => "Authentication failed. Check your username and password."
  | .connectError => "Failed to connect to the SMTP server."
  | .recipientsRefused => "Recipient address rejected by the server."
  | .senderRefused => "Sender address rejected by the server."
  | .dataError => "The SMTP server refused to accept the message data."
  | .smtpOther msg => "An SMTP error occurred: " ++ msg
  | .unexpected msg => "An unexpected error occurred: " ++ msg

/-- The two clock readings available to the process: `datetime.now()` (the
process-local clock) and the UTC clock.  `save_email_result` calls
`datetime.now()`, i.e. reads `localDate`. -/
structure Clock where
  localDate : String
  utcDate : String
deriving Repr, DecidableEq

/-- The file path `save_email_result` writes to (lines 42-59):
`os.path.join("data", date_str, status_dir)` plus `f"{email_id}.json"`,
with `date_str = datetime.now().strftime("%Y-%m-%d")` (local time). -/
def resultKey (clock : Clock) (status : String) (email_id : String) : String :=
  "data/" ++ clock.localDate ++ "/"
    ++ (if status = "success" then "success" else "failure")
    ++ "/" ++ email_id ++ ".json"

/-- One persisted delivery result (the JSON written by `save_email_result`),
together with the key it was written under. -/
structure ResultRecord where
  key : String
  email_id : String
  status : String
  detail : String
  message_length : Nat
deriving Repr, DecidableEq

/-- Record construction performed by `save_email_result`. -/
def save_email_result (clock : Clock) (email_id status detail : String)
    (message_length : Nat) : ResultRecord :=
  { key := resultKey clock status email_id
    email_id := email_id
    status := status
    detail := detail
    message_length := message_length }

/-- Environment of one dispatch: attachment fetches, the outcome of the
SMTP connect/login/sendmail block, and whether the debug raw-copy write
(`save_debug_email`, plain file I/O) raises. -/
structure SendEnv where
  fetch : FetchFn
  smtpOutcome : Except SmtpErr Unit
  debugSaveRaises : Bool

/-- Abstract byte length of the assembled message
(`len(message.as_string())`); only its presence matters to the claims. -/
def messageLength (parts : List MimePart) : Nat :=
  parts.length

/-- The dispatch unit `send_email_task` (lines 110-160), returning the list of
`save_email_result` writes it performs, in order.  Control flow follows the
source: everything up to and including the debug save runs inside one
`try`; each `except` handler writes one failure result.  A raising
`save_debug_email` after the success write is caught by the generic
handler, which writes a second result for the same id. -/
def send_email_task (env : SendEnv) (clock : Clock) (req : EmailRequest)
    (email_id : String) (attachment_names : List (Option String)) :
    List ResultRecord :=
  match assembleParts env.fetch req attachment_names with
  | .error msg =>
    [save_email_result clock email_id "failure"
      ("An unexpected error occurred: " ++ msg) 0]
  | .ok parts =>
    match env.smtpOutcome with
    | .error e => [save_email_result clock email_id "failure" (detailOf e) 0]
    | .ok () =>
      let succ := save_email_result clock email_id "success"
        "Email sent successfully" (messageLength parts)
      if req.debug && env.debugSaveRaises then
        [succ,
          save_email_result clock email_id "failure"
            ("An unexpected error occurred: debug save failed") 0]
      else [succ]

/-- The failure class can be recovered from the first four characters of
the recorded detail string. -/
def recoverClass (s : String) : Nat :=
  let t := s.data.take 4
  if t = "Auth".data then 0
  else if t = "Fail".data then 1
  else if t = "Reci".data then 2
  else if t = "Send".data then 3
  else if t = "The ".data then 4
  else if t = "An S".data then 5
  else 6

/-- Modelled from the spec's words, as the refinement target for C9: the
claimed storage-key form `{utc-date}/{status}/{messageId}`. -/
def specClaimedUtcKey (clock : Clock) (status email_id : String) : String :=
  clock.utcDate ++ "/"
    ++ (if status = "success" then "success" else "failure")
    ++ "/" ++ email_id

/-! ## Inbound path: data model and MinIO store
(`src/app/email_receiver.py`) -/

/-- One attachment descriptor of an inbound message. -/
structure AttachMeta where
  aid : String
  filename : String
  contentType : String
deriving Repr, DecidableEq

/-- The normalized inbound record built by `process_received_email`
(lines 139-149).  `fromRepr`/`toRepr` are the Python `str()` renderings of
the `from` structure and the recipient list, which is what
`search_received_emails` matches against. -/
structure EmailRec where
  id : String
  fromRepr : String
  toRepr : String
  subject : String
  text : String
  html : String
  attachments : List AttachMeta
  received_at : String
  processed_at : String
deriving Repr, DecidableEq

/-- One object of the `received_emails` MinIO bucket.  `parsed = some r`
means fetching the object and `json.loads`-ing it yields `r`; `parsed =
none` covers attachment blobs, unparseable payloads and per-object fetch
errors, all of which the read side skips identically.  The byte size is
carried for the statistics sums; the JSON byte length of records written by
this model is abstracted to `0`. -/
structure MObj where
  name : String
  size : Nat
  parsed : Option EmailRec
deriving Repr, DecidableEq

/-- Upsert semantics of `minio_client.put_object`: writing to an existing key overwrites it,
otherwise the object is appended. -/
def putObject (store : List MObj) (o : MObj) : List MObj :=
  if store.any (fun x => x.name == o.name) then
    store.map (fun x => if x.name == o.name then o else x)
  else store ++ [o]

/-- The storage key of `save_received_email` (line 173):
`f"{timestamp}_{email_id}_email.json"` with a second-granular timestamp. -/
def inboundKey (nowKey id : String) : String :=
  nowKey ++ "_" ++ id ++ "_email.json"

/-- The storage key of `process_attachments` (line 203):
`f"{email_id}_{attachment_id}_{filename}"`. -/
def attachKey (id aid filename : String) : String :=
  id ++ "_" ++ aid ++ "_" ++ filename

/-- The method `EmailReceiver.save_received_email` (lines 165-190): writes the record
under `inboundKey`; a raising `put_object` is swallowed by the method's own
`except`, leaving the store unchanged. -/
def save_received_email (nowKey : String) (putRaises : Bool) (r : EmailRec)
    (store : List MObj) : List MObj :=
  if putRaises then store
  else putObject store ⟨inboundKey nowKey r.id, 0, some r⟩

/-! ## Inbound path: read side (`get_received_emails`,
`search_received_emails`, `get_statistics`) -/

/-- Environment of one read-side call: the outcome of
`list_objects(bucket)` (`Except.error` = the storage layer raises), and the
current clock reading used by `get_statistics`. -/
structure ReadEnv where
  listResult : Except String (List MObj)
  nowISO : String

/-- Body of `get_received_emails(limit, offset)` (lines 236-255) inside its
`try`: list the bucket, slice `objects[offset:offset+limit]`, and keep the
objects that fetch and parse (per-object failures are skipped by the inner
`except`). -/
def get_received_emailsInner (env : ReadEnv) (limit offset : Nat) :
    Except String (List EmailRec) :=
  match env.listResult with
  | .error e => .error e
  | .ok objs => .ok (((objs.drop offset).take limit).filterMap (·.parsed))

/-- Public `get_received_emails`: the outer `except` turns any storage failure
into `[]`. -/
def get_received_emails (env : ReadEnv) (limit offset : Nat) :
    List EmailRec :=
  match get_received_emailsInner env limit offset with
  | .ok v => v
  | .error _ => []

/-- The per-email match of `search_received_emails` (lines 265-272):
case-insensitive substring test against subject, sender representation,
recipient representation, text and HTML body. -/
def matchesQuery (query : String) (e : EmailRec) : Bool :=
  let q := lowerStr query
  strContains (lowerStr e.subject) q || strContains (lowerStr e.fromRepr) q ||
    strContains (lowerStr e.toRepr) q || strContains (lowerStr e.text) q ||
    strContains (lowerStr e.html) q

/-- Body of `search_received_emails(query)` (lines 257-278) inside its
`try`: fetch the first 1000 stored emails (`limit=1000, offset=0`) and
filter by `matchesQuery`.  Nothing in this body can raise. -/
def search_received_emailsInner (env : ReadEnv) (query : String) :
    Except String (List EmailRec) :=
  .ok ((get_received_emails env 1000 0).filter (matchesQuery query))

/-- Public `search_received_emails`: the outer `except` turns any failure
into `[]`. -/
def search_received_emails (env : ReadEnv) (query : String) :
    List EmailRec :=
  match search_received_emailsInner env query with
  | .ok v => v
  | .error _ => []

/-- Result shape of `get_statistics` (lines 280-298): either the statistics
dictionary or the `{"error": str(e)}` fallback dictionary. -/
inductive StatsOut where
  | stats (totalEmails totalAttachments bucketBytes : Nat)
      (lastUpdated : String)
  | errorDict (msg : String)
deriving Repr, DecidableEq

/-- Python `name.endswith("_email.json")`, via character lists. -/
def isEmailObject (o : MObj) : Bool :=
  "_email.json".data.isSuffixOf o.name.data

/-- Body of `get_statistics` inside its `try`. -/
def get_statisticsInner (env : ReadEnv) : Except String StatsOut :=
  match env.listResult with
  | .error e => .error e
  | .ok objs =>
    .ok (.stats (objs.filter isEmailObject).length
      (objs.filter (fun o => !isEmailObject o)).length
      (objs.foldl (fun a o => a + o.size) 0) env.nowISO)

/-- Public `get_statistics`: the outer `except` returns the error dictionary. -/
def get_statistics (env : ReadEnv) : StatsOut :=
  match get_statisticsInner env with
  | .ok v => v
  | .error e => .errorDict e

/-! ## Inbound path: the polling cycle (`listen_for_emails`,
`process_received_email`, lines 59-163) -/

/-- One entry of the MailDev `/api/mails` listing. -/
structure SourceMsg where
  id : String
  read : Bool
deriving Repr, DecidableEq

/-- The full content `/api/mail/{id}` returns for a message. -/
structure FullContent where
  fromRepr : String
  toRepr : String
  subject : String
  text : String
  html : String
  attachments : List AttachMeta
  time : String
deriving Repr, DecidableEq

/-- What `process_received_email` returns: the processed record, or the
error dictionary it substitutes when the message's processing raises or
its content cannot be fetched. -/
inductive ProcResult where
  | ok (r : EmailRec)
  | err (msg : String)
deriving Repr, DecidableEq

/-- Environment of one polling cycle: content fetches, persistence and
mark-as-read failure injection, attachment downloads, the optional
per-message callback (`some f` with `f res = true` meaning the callback
raises on `res`), and the clock readings. -/
structure RecvEnv where
  listUnreadFails : Bool
  contentOf : String → Option FullContent
  persistRaises : String → Bool
  attachData : String → String → Option String
  attachPutRaises : String → String → Bool
  markWorks : String → Bool
  callbackRaises : Option (ProcResult → Bool)
  nowISO : String
  nowKey : String

/-- The record `process_received_email` builds (lines 139-149). -/
def mkRec (id : String) (c : FullContent) (nowISO : String) : EmailRec :=
  { id := id
    fromRepr := c.fromRepr
    toRepr := c.toRepr
    subject := c.subject
    text := c.text
    html := c.html
    attachments := c.attachments
    received_at := c.time
    processed_at := nowISO }

/-- The method `process_attachments` (lines 192-219): per-attachment download and put,
each failure swallowed per attachment. -/
def process_attachments (env : RecvEnv) (id : String)
    (atts : List AttachMeta) (store : List MObj) : List MObj :=
  atts.foldl
    (fun st a =>
      match env.attachData id a.aid with
      | none => st
      | some _ =>
        if env.attachPutRaises id a.aid then st
        else putObject st ⟨attachKey id a.aid a.filename, 0, none⟩)
    store

/-- The method `process_received_email` (lines 130-163): fetch full content (a failed
fetch yields the error dictionary), build the record, persist it (its own
failures swallowed), persist attachments if any, and return the record.
Its `try/except` means this function never raises. -/
def process_received_email (env : RecvEnv) (store : List MObj)
    (id : String) : ProcResult × List MObj :=
  match env.contentOf id with
  | none => (.err "could not fetch email content", store)
  | some c =>
    let r := mkRec id c env.nowISO
    let store1 := save_received_email env.nowKey (env.persistRaises id) r store
    let store2 :=
      if r.attachments.isEmpty then store1
      else process_attachments env id r.attachments store1
    (.ok r, store2)

/-- Whether calling the configured callback on `res` raises. -/
def cbRaises (env : RecvEnv) (res : ProcResult) : Bool :=
  match env.callbackRaises with
  | none => false
  | some f => f res

/-- Outcome of one polling cycle: final store and source state, the
processing results in order, the ids successfully marked as read, and
whether the cycle's `for` loop was aborted by an escaping exception
(caught by the cycle-level `except`). -/
structure CycleOut where
  store : List MObj
  source : List SourceMsg
  results : List ProcResult
  marked : List String
  aborted : Bool
deriving Repr, DecidableEq

/-- The MailDev-side effect of `mark_email_as_read`. -/
def markRead (src : List SourceMsg) (id : String) : List SourceMsg :=
  src.map (fun m => if m.id == id then ⟨m.id, true⟩ else m)

/-- The per-message `for` body of `listen_for_emails` (lines 64-75), over
the pre-fetched worklist: process, call the callback (whose exception
escapes to the cycle-level `except`, aborting the rest of the worklist and
skipping this message's mark-as-read), then mark as read (that call's own
failures are swallowed inside `mark_email_as_read`). -/
def runCycleAux (env : RecvEnv) : List SourceMsg → List MObj →
    List SourceMsg → CycleOut
  | [], store, src => ⟨store, src, [], [], false⟩
  | m :: rest, store, src =>
    let pr := process_received_email env store m.id
    if cbRaises env pr.1 then ⟨pr.2, src, [pr.1], [], true⟩
    else
      let src1 := if env.markWorks m.id then markRead src m.id else src
      let marked1 := if env.markWorks m.id then [m.id] else []
      let out := runCycleAux env rest pr.2 src1
      ⟨out.store, out.source, pr.1 :: out.results, marked1 ++ out.marked,
        out.aborted⟩

/-- One iteration of the `while True` loop of `listen_for_emails`:
`get_unread_emails` (which returns `[]` on its own failures) filters the
source for unread messages, then each is processed in order. -/
def runCycle (env : RecvEnv) (store : List MObj) (src : List SourceMsg) :
    CycleOut :=
  runCycleAux env
    (if env.listUnreadFails then [] else src.filter (fun m => !m.read))
    store src

/-- A store of 1001 objects: 1000 non-matching records before one matching
record, exercising `search_received_emails`'s `limit=1000` window. -/
def c8dummy : EmailRec := ⟨"d", "", "", "", "", "", [], "", ""⟩

def c8target : EmailRec := ⟨"m1", "", "", "Needle update", "", "", [], "", ""⟩

def c8objs : List MObj :=
  List.replicate 1000 ⟨"dup", 0, some c8dummy⟩ ++ [⟨"zz", 0, some c8target⟩]

def c8env : ReadEnv := ⟨.ok c8objs, "t"⟩

/-! ## Key counting and concrete scenarios for the inbound claims -/

/-- Number of stored objects under a given key. -/
def countName (store : List MObj) (n : String) : Nat :=
  (store.filter (fun o => o.name == n)).length

/-- Two ingestions of the same source message, at distinct second-granular
timestamps (e.g. two poll cycles 30 s apart). -/
def c3rec1 : EmailRec := ⟨"m1", "f", "t", "Hi", "body", "", [], "10:00:00", "p1"⟩

def c3rec2 : EmailRec := ⟨"m1", "f", "t", "Hi", "body", "", [], "10:00:00", "p2"⟩

/-- The cycle environment for the C2 scenario: every content fetch fails
(MailDev returns no content), marks succeed, no callback configured. -/
def c2env : RecvEnv :=
  { listUnreadFails := false
    contentOf := fun _ => none
    persistRaises := fun _ => false
    attachData := fun _ _ => none
    attachPutRaises := fun _ _ => false
    markWorks := fun _ => true
    callbackRaises := none
    nowISO := "t"
    nowKey := "k" }

/-- The cycle environment for the C4 counterexample: content fetches
succeed, but the configured per-message callback raises on every result. -/
def c4env : RecvEnv :=
  { listUnreadFails := false
    contentOf := fun _ => some ⟨"f", "t", "s", "tx", "h", [], "time"⟩
    persistRaises := fun _ => false
    attachData := fun _ _ => none
    attachPutRaises := fun _ _ => false
    markWorks := fun _ => true
    callbackRaises := some (fun _ => true)
    nowISO := "t"
    nowKey := "k" }

theorem infixOfL_iff (n h : List Char) : infixOfL n h = true ↔ n <:+: h := by
  induction h with
  | nil =>
    simp [infixOfL, List.isPrefixOf_iff_prefix, List.infix_nil, List.prefix_nil]
  | cons c rest ih =>
    simp [infixOfL, List.isPrefixOf_iff_prefix, ih, List.infix_cons_iff]

theorem strContains_iff (hay needle : String) :
    strContains hay needle = true ↔ needle.data <:+: hay.data := by
  simp [strContains, infixOfL_iff]

theorem keywordHits_iff_any (ks : List String) (subject text : String) :
    (ks.any fun k =>
        strContains (lowerStr subject) k || strContains (lowerStr text) k) = true ↔
      keywordHits ks subject text := by
  simp only [List.any_eq_true, Bool.or_eq_true, strContains_iff, keywordHits]

/-! ## Theorems about the outbound path -/

theorem take_append_of_le {α : Type} (n : Nat) (l₁ l₂ : List α)
    (h : n ≤ l₁.length) : (l₁ ++ l₂).take n = l₁.take n := by
  induction n generalizing l₁ with
  | zero => simp
  | succ n ih =>
    cases l₁ with
    | nil => simp at h
    | cons a as => simpa using ih as (by simpa using h)

theorem recoverClass_detailOf (e : SmtpErr) :
    recoverClass (detailOf e) = errClass e := by
  cases e with
  | smtpOther msg =>
    have ht : List.take 4 ("An SMTP error occurred: ".data ++ msg.data) =
        "An S".data :=
      (take_append_of_le 4 _ _ (by decide)).trans (by decide)
    simp only [detailOf, errClass, recoverClass, String.data_append, ht]
    decide
  | unexpected msg =>
    have ht : List.take 4 ("An unexpected error occurred: ".data ++ msg.data) =
        "An u".data :=
      (take_append_of_le 4 _ _ (by decide)).trans (by decide)
    simp only [detailOf, errClass, recoverClass, String.data_append, ht]
    decide
  | _ => decide

/-- C5: a dispatch whose SMTP block fails with a given exception class
records exactly one failure `DeliveryResult` carrying that class's detail
string, and the detail strings of distinct classes are always distinct
(whatever message payload the generic classes carry). -/
theorem smtp_failure_classes_distinct_details :
    (∀ (env : SendEnv) (clock : Clock) (req : EmailRequest)
        (email_id : String) (names : List (Option String))
        (parts : List MimePart) (e : SmtpErr),
      assembleParts env.fetch req names = .ok parts →
      env.smtpOutcome = .error e →
      send_email_task env clock req email_id names =
        [save_email_result clock email_id "failure" (detailOf e) 0]) ∧
    (∀ e1 e2 : SmtpErr, errClass e1 ≠ errClass e2 →
      detailOf e1 ≠ detailOf e2) := by
  constructor
  · intro env clock req email_id names parts e hassm hsm
    unfold send_email_task
    rw [hassm, hsm]
  · intro e1 e2 h he
    exact h (recoverClass_detailOf e1 ▸ recoverClass_detailOf e2 ▸
      congrArg recoverClass he)

theorem smtp_failure_classes_distinct_details_witness :
    send_email_task ⟨fun _ => none, .error .authError, false⟩
        ⟨"2025-01-01", "2025-01-01"⟩ ⟨"to@x.org", "s", "b", false⟩ "id1" [] =
      [save_email_result ⟨"2025-01-01", "2025-01-01"⟩ "id1" "failure"
        "Authentication failed. Check your username and password." 0] ∧
    detailOf .authError ≠ detailOf .connectError :=
  ⟨smtp_failure_classes_distinct_details.1
      ⟨fun _ => none, .error .authError, false⟩ ⟨"2025-01-01", "2025-01-01"⟩
      ⟨"to@x.org", "s", "b", false⟩ "id1" [] [.textPart "plain" "b" none]
      .authError rfl rfl,
    smtp_failure_classes_distinct_details.2 .authError .connectError
      (by decide)⟩

/-- C1: evaluation at the failing input.  A debug-flagged request whose SMTP
send succeeds but whose subsequent raw-copy write (`save_debug_email`)
raises ends the dispatch unit with TWO `DeliveryResult` records for the
same message id: the success record already written, then the failure
record written by the generic `except` handler that catches the raise. -/
theorem debug_save_failure_writes_two_results :
    send_email_task ⟨fun _ => none, .ok (), true⟩ ⟨"2025-01-01", "2025-01-01"⟩
        ⟨"to@x.org", "subj", "hello", true⟩ "id-1" [] =
      [save_email_result ⟨"2025-01-01", "2025-01-01"⟩ "id-1" "success"
          "Email sent successfully" 1,
        save_email_result ⟨"2025-01-01", "2025-01-01"⟩ "id-1" "failure"
          "An unexpected error occurred: debug save failed" 0] ∧
    (send_email_task ⟨fun _ => none, .ok (), true⟩ ⟨"2025-01-01", "2025-01-01"⟩
        ⟨"to@x.org", "subj", "hello", true⟩ "id-1" []).length = 2 ∧
    ∀ r ∈ send_email_task ⟨fun _ => none, .ok (), true⟩
        ⟨"2025-01-01", "2025-01-01"⟩
        ⟨"to@x.org", "subj", "hello", true⟩ "id-1" [],
      r.email_id = "id-1" := by
  refine ⟨rfl, rfl, ?_⟩
  decide

/-- C9 counterexample: whenever the process-local calendar date differs from
the UTC calendar date (here: shortly after local midnight), the key
`save_email_result` writes under uses the LOCAL date — it does not have the
claimed form `{utc-date}/{status}/{messageId}`. -/
theorem result_key_not_utc_partitioned :
    resultKey ⟨"2025-03-01", "2025-02-28"⟩ "success" "m1" ≠
      specClaimedUtcKey ⟨"2025-03-01", "2025-02-28"⟩ "success" "m1" ∧
    resultKey ⟨"2025-03-01", "2025-02-28"⟩ "success" "m1" =
      "data/2025-03-01/success/m1.json" := by
  constructor
  · decide
  · rfl

/-- C9 (amended): every `DeliveryResult` written by a dispatch is keyed
`data/{local-date}/{status}/{messageId}.json`, where the date is the
process-local calendar date (`datetime.now()`), and the status segment is
either `success` or `failure` and matches the record's status. -/
theorem result_keys_partitioned_by_local_date_and_status
    (env : SendEnv) (clock : Clock) (req : EmailRequest) (email_id : String)
    (names : List (Option String)) (r : ResultRecord)
    (hr : r ∈ send_email_task env clock req email_id names) :
    r.key = "data/" ++ clock.localDate ++ "/"
        ++ (if r.status = "success" then "success" else "failure")
        ++ "/" ++ r.email_id ++ ".json"
      ∧ (r.status = "success" ∨ r.status = "failure")
      ∧ r.email_id = email_id := by
  unfold send_email_task at hr
  cases hassm : assembleParts env.fetch req names with
  | error msg =>
    rw [hassm] at hr
    simp only [List.mem_singleton] at hr
    subst hr
    refine ⟨?_, Or.inr rfl, rfl⟩
    simp [save_email_result, resultKey]
  | ok parts =>
    rw [hassm] at hr
    cases hsm : env.smtpOutcome with
    | error e =>
      rw [hsm] at hr
      simp only [List.mem_singleton] at hr
      subst hr
      refine ⟨?_, Or.inr rfl, rfl⟩
      simp [save_email_result, resultKey]
    | ok u =>
      cases u
      rw [hsm] at hr
      by_cases hd : (req.debug && env.debugSaveRaises) = true
      · simp only [hd, if_true, List.mem_cons, List.mem_singleton,
          List.not_mem_nil, or_false] at hr
        rcases hr with hr | hr
        · subst hr
          refine ⟨?_, Or.inl rfl, rfl⟩
          simp [save_email_result, resultKey]
        · subst hr
          refine ⟨?_, Or.inr rfl, rfl⟩
          simp [save_email_result, resultKey]
      · simp [hd] at hr
        subst hr
        refine ⟨?_, Or.inl rfl, rfl⟩
        simp [save_email_result, resultKey]

theorem result_keys_partitioned_witness :
    (save_email_result ⟨"2025-01-01", "2025-01-01"⟩ "m7" "success"
        "Email sent successfully" 1).key =
      "data/" ++ "2025-01-01" ++ "/" ++ "success" ++ "/" ++ "m7" ++ ".json" ∧
    ("success" : String) = "success" ∨ ("success" : String) = "failure" := by
  have h := result_keys_partitioned_by_local_date_and_status
    ⟨fun _ => none, .ok (), false⟩ ⟨"2025-01-01", "2025-01-01"⟩
    ⟨"to@x.org", "s", "b", false⟩ "m7" []
    (save_email_result ⟨"2025-01-01", "2025-01-01"⟩ "m7" "success"
      "Email sent successfully" 1)
    (by decide)
  exact Or.inl (by simpa using h.1)

/-- C6: a send with a body and two staged attachments, one `.txt` and one
`.bin`, assembles exactly three parts — the plain-text body, then the two
attachments in input order — with the `.bin` part base64-encoded as
`application/octet-stream`; and in general an attachment whose extension
guesses no type (or carries an encoding suffix) becomes a base64
`application/octet-stream` `MIMEBase` part, while text/image/audio guesses
use their native MIME subtype directly. -/
theorem assembled_message_parts_spec :
    (assembleParts
        (fun n => if n = "u1_report.txt" then some "hello"
          else if n = "u2_data.bin" then some "BIN" else none)
        ⟨"to@x.org", "subj", "body", false⟩
        [some "u1_report.txt", some "u2_data.bin"] =
      .ok [.textPart "plain" "body" none,
        .textPart "plain" "hello" (some "report.txt"),
        .basePart "application" "octet-stream" "BIN" "base64"
          (some "data.bin")]) ∧
    (∀ (fetch : FetchFn) (name content : String) (fn : List Char),
      fetch name = some content →
      afterChar '_' name.data = some fn →
      ((guess_type (String.mk fn)).1 = none ∨
        ((guess_type (String.mk fn)).2).isSome = true) →
      add_attachment fetch name =
        .ok (.basePart "application" "octet-stream" content "base64"
          (some (String.mk fn)))) ∧
    (∀ (fetch : FetchFn) (name content : String) (fn : List Char)
        (ctype : String),
      fetch name = some content →
      afterChar '_' name.data = some fn →
      guess_type (String.mk fn) = (some ctype, none) →
      String.mk (beforeChar '/' ctype.data) = "text" →
      add_attachment fetch name =
        .ok (.textPart (String.mk ((afterChar '/' ctype.data).getD []))
          content (some (String.mk fn)))) ∧
    (∀ (fetch : FetchFn) (name content : String) (fn : List Char)
        (ctype : String),
      fetch name = some content →
      afterChar '_' name.data = some fn →
      guess_type (String.mk fn) = (some ctype, none) →
      String.mk (beforeChar '/' ctype.data) = "image" →
      add_attachment fetch name =
        .ok (.imagePart (String.mk ((afterChar '/' ctype.data).getD []))
          content (some (String.mk fn)))) ∧
    (∀ (fetch : FetchFn) (name content : String) (fn : List Char)
        (ctype : String),
      fetch name = some content →
      afterChar '_' name.data = some fn →
      guess_type (String.mk fn) = (some ctype, none) →
      String.mk (beforeChar '/' ctype.data) = "audio" →
      add_attachment fetch name =
        .ok (.audioPart (String.mk ((afterChar '/' ctype.data).getD []))
          content (some (String.mk fn)))) := by
  refine ⟨rfl, ?_, ?_, ?_, ?_⟩
  · intro fetch name content fn hf hsplit hun
    cases hg : guess_type (String.mk fn) with
    | mk t? e? =>
      rw [hg] at hun
      rcases hun with h1 | h2
      · have h1' : t? = none := h1
        subst h1'
        cases e? <;> simp only [add_attachment, hf, hsplit, hg] <;> rfl
      · have h2' : e?.isSome = true := h2
        cases e? with
        | none => simp at h2'
        | some enc =>
          cases t? <;> simp only [add_attachment, hf, hsplit, hg] <;> rfl
  · intro fetch name content fn ctype hf hsplit hg hm
    simp only [add_attachment, hf, hsplit, hg, hm]
    rfl
  · intro fetch name content fn ctype hf hsplit hg hm
    simp only [add_attachment, hf, hsplit, hg, hm]
    rfl
  · intro fetch name content fn ctype hf hsplit hg hm
    simp only [add_attachment, hf, hsplit, hg, hm]
    rfl

theorem assembled_message_parts_spec_witness :
    add_attachment
        (fun n => if n = "u2_data.bin" then some "BIN" else none)
        "u2_data.bin" =
      .ok (.basePart "application" "octet-stream" "BIN" "base64"
        (some "data.bin")) :=
  assembled_message_parts_spec.2.1
    (fun n => if n = "u2_data.bin" then some "BIN" else none)
    "u2_data.bin" "BIN" "data.bin".data rfl rfl (Or.inl rfl)

/-- C7: priority classification is a pure function of subject and plain-text
body: it returns "high" iff a high-priority keyword ("urgent", "critical",
"emergency", ...) occurs case-insensitively in subject or body, "medium" iff
none does but a medium-priority keyword ("important", ...) occurs, and
"normal" iff neither keyword set occurs. -/
theorem estimate_priority_spec (subject text : String) :
    (estimate_priority subject text = "high" ↔
      keywordHits high_priority_keywords subject text) ∧
    (estimate_priority subject text = "medium" ↔
      ¬ keywordHits high_priority_keywords subject text ∧
        keywordHits medium_priority_keywords subject text) ∧
    (estimate_priority subject text = "normal" ↔
      ¬ keywordHits high_priority_keywords subject text ∧
        ¬ keywordHits medium_priority_keywords subject text) := by
  have h1 := keywordHits_iff_any high_priority_keywords subject text
  have h2 := keywordHits_iff_any medium_priority_keywords subject text
  simp only [estimate_priority]
  cases hb : (high_priority_keywords.any fun k =>
      strContains (lowerStr subject) k || strContains (lowerStr text) k) <;>
    cases hmB : (medium_priority_keywords.any fun k =>
        strContains (lowerStr subject) k || strContains (lowerStr text) k) <;>
      rw [hb] at h1 <;> rw [hmB] at h2 <;>
        simp at h1 h2 <;> simp [hb, hmB] <;> tauto

/-! ## Theorems about the inbound read side -/

/-- C10: the read-side operations never raise: when listing the bucket
fails, `get_received_emails` and `search_received_emails` return `[]` and
`get_statistics` returns the error dictionary; and when listing succeeds,
the bodies inside the `try` blocks cannot raise at all (per-object fetch or
parse failures are skipped, never propagated). -/
theorem read_side_error_fallbacks (env : ReadEnv) (l o : Nat) (q : String) :
    (∀ e, env.listResult = .error e →
      get_received_emails env l o = [] ∧
      search_received_emails env q = [] ∧
      get_statistics env = .errorDict e) ∧
    (∀ objs, env.listResult = .ok objs →
      get_received_emailsInner env l o =
        .ok (((objs.drop o).take l).filterMap (·.parsed)) ∧
      search_received_emailsInner env q =
        .ok ((get_received_emails env 1000 0).filter (matchesQuery q)) ∧
      get_statisticsInner env =
        .ok (.stats (objs.filter isEmailObject).length
          (objs.filter (fun x => !isEmailObject x)).length
          (objs.foldl (fun a x => a + x.size) 0) env.nowISO)) := by
  constructor
  · intro e he
    refine ⟨?_, ?_, ?_⟩
    · simp [get_received_emails, get_received_emailsInner, he]
    · simp [search_received_emails, search_received_emailsInner,
        get_received_emails, get_received_emailsInner, he]
    · simp [get_statistics, get_statisticsInner, he]
  · intro objs ho
    refine ⟨?_, rfl, ?_⟩
    · simp [get_received_emailsInner, ho]
    · simp [get_statisticsInner, ho]

theorem read_side_error_fallbacks_witness :
    get_received_emails ⟨.error "boom", "t"⟩ 50 0 = [] ∧
    search_received_emails ⟨.error "boom", "t"⟩ "q" = [] ∧
    get_statistics ⟨.error "boom", "t"⟩ = .errorDict "boom" :=
  (read_side_error_fallbacks ⟨.error "boom", "t"⟩ 50 0 "q").1 "boom" rfl

set_option maxRecDepth 100000 in
/-- C8 counterexample: `search_received_emails` only scans the first 1000
listed objects (`get_received_emails(limit=1000, offset=0)`), so a
persisted message beyond that window is not returned even though the query
occurs in its subject — the claimed "returns iff matches" fails for stores
with more than 1000 objects. -/
theorem search_misses_beyond_first_1000 :
    matchesQuery "needle" c8target = true ∧
    (∃ obj ∈ c8objs, obj.parsed = some c8target) ∧
    c8target ∉ search_received_emails c8env "needle" := by
  refine ⟨by decide, ⟨⟨"zz", 0, some c8target⟩, ?_, rfl⟩, ?_⟩
  · exact List.mem_append_right _ (List.mem_singleton.mpr rfl)
  · have hs : search_received_emails c8env "needle" = [] := by rfl
    rw [hs]
    exact List.not_mem_nil _

/-- C8 (amended): provided at most 1000 objects are stored, search returns
a persisted message if and only if the query occurs case-insensitively as
a substring of its subject, sender representation, recipient-list
representation, plain-text body, or HTML body. -/
theorem search_found_iff_match_within_first_1000
    (env : ReadEnv) (objs : List MObj) (q : String) (r : EmailRec)
    (hls : env.listResult = .ok objs) (hlen : objs.length ≤ 1000) :
    r ∈ search_received_emails env q ↔
      ((∃ o ∈ objs, o.parsed = some r) ∧ matchesQuery q r = true) := by
  unfold search_received_emails search_received_emailsInner
    get_received_emails get_received_emailsInner
  rw [hls]
  simp [List.drop_zero, List.take_of_length_le hlen]

theorem search_found_iff_witness :
    c8target ∈ search_received_emails ⟨.ok [⟨"a", 0, some c8target⟩], "t"⟩
      "needle" :=
  (search_found_iff_match_within_first_1000
      ⟨.ok [⟨"a", 0, some c8target⟩], "t"⟩ [⟨"a", 0, some c8target⟩]
      "needle" c8target rfl (by decide)).mpr
    ⟨⟨⟨"a", 0, some c8target⟩, List.mem_singleton.mpr rfl, rfl⟩, by decide⟩

theorem filter_map_replace (s : List MObj) (o : MObj) :
    ((s.map (fun x => if x.name == o.name then o else x)).filter
        (fun x => x.name == o.name)).length =
      (s.filter (fun x => x.name == o.name)).length := by
  induction s with
  | nil => rfl
  | cons a as ih =>
    have ih' := ih
    simp only [beq_iff_eq] at ih'
    cases ha : (a.name == o.name) with
    | true =>
      have ha' : a.name = o.name := by simpa using ha
      simp [List.filter_cons, ha', ih']
    | false =>
      have ha' : ¬a.name = o.name := by simpa using ha
      simp [List.filter_cons, ha', ih']

theorem countName_putObject_self (store : List MObj) (o : MObj) :
    countName (putObject store o) o.name =
      if countName store o.name = 0 then 1 else countName store o.name := by
  unfold putObject countName
  by_cases h : store.any (fun x => x.name == o.name) = true
  · rw [if_pos h]
    rw [filter_map_replace]
    rcases List.any_eq_true.mp h with ⟨x, hx, hpx⟩
    have hne : (store.filter (fun x => x.name == o.name)).length ≠ 0 := by
      intro h0
      have : x ∈ store.filter (fun x => x.name == o.name) :=
        List.mem_filter.mpr ⟨hx, hpx⟩
      rw [List.length_eq_zero.mp h0] at this
      exact List.not_mem_nil x this
    rw [if_neg hne]
  · rw [if_neg h]
    have hnil : store.filter (fun x => x.name == o.name) = [] := by
      rw [List.filter_eq_nil_iff]
      intro a ha
      intro hpa
      exact h (List.any_eq_true.mpr ⟨a, ha, hpa⟩)
    rw [List.filter_append, hnil]
    simp

/-- C3 counterexample: the inbound storage key embeds a second-granular
timestamp, so re-ingesting source id `m1` in a later second writes a
second, distinct object; listing then observably returns two records for
the same source id — ingestion is not idempotent per source id. -/
theorem reingestion_creates_second_record :
    get_received_emails
        ⟨.ok (save_received_email "2025-01-01_10-00-31" false c3rec2
          (save_received_email "2025-01-01_10-00-00" false c3rec1 [])), "t"⟩
        50 0 =
      [c3rec1, c3rec2] ∧
    c3rec1 ≠ c3rec2 ∧ c3rec1.id = c3rec2.id := by
  exact ⟨rfl, by decide, rfl⟩

/-- C3 (amended): ingestion is idempotent only per (timestamp-second,
source id): re-ingesting the same source id with the SAME second-granular
timestamp overwrites the same storage key, leaving exactly one persisted
object under that key. -/
theorem same_timestamp_reingestion_idempotent
    (k : String) (r1 r2 : EmailRec) (store : List MObj)
    (hid : r1.id = r2.id)
    (h0 : countName store (inboundKey k r2.id) = 0) :
    countName
      (save_received_email k false r2 (save_received_email k false r1 store))
      (inboundKey k r2.id) = 1 := by
  have hkey : inboundKey k r1.id = inboundKey k r2.id := by rw [hid]
  unfold save_received_email
  simp only [Bool.false_eq_true, if_false]
  rw [← hkey] at h0 ⊢
  have s1 := countName_putObject_self store ⟨inboundKey k r1.id, 0, some r1⟩
  rw [h0] at s1
  simp only [if_pos] at s1
  have s2 := countName_putObject_self
    (putObject store ⟨inboundKey k r1.id, 0, some r1⟩)
    ⟨inboundKey k r1.id, 0, some r2⟩
  rw [s1] at s2
  simpa using s2

theorem same_timestamp_reingestion_idempotent_witness :
    countName
      (save_received_email "2025-01-01_10-00-00" false c3rec2
        (save_received_email "2025-01-01_10-00-00" false c3rec1 []))
      (inboundKey "2025-01-01_10-00-00" c3rec2.id) = 1 :=
  same_timestamp_reingestion_idempotent "2025-01-01_10-00-00" c3rec1 c3rec2
    [] rfl rfl

/-! ## Theorems about the polling cycle (C2, C4) -/

/-- When no per-message callback is configured, every message of the
worklist is processed (one result each), exactly the messages whose
mark-as-read call works end up marked, and the cycle is never aborted. -/
theorem runCycleAux_no_callback (env : RecvEnv)
    (h : env.callbackRaises = none) :
    ∀ (wl : List SourceMsg) (store : List MObj) (src : List SourceMsg),
      (runCycleAux env wl store src).results.length = wl.length ∧
      (runCycleAux env wl store src).marked =
        (wl.filter (fun m => env.markWorks m.id)).map (·.id) ∧
      (runCycleAux env wl store src).aborted = false := by
  intro wl
  induction wl with
  | nil => intro store src; exact ⟨rfl, rfl, rfl⟩
  | cons m rest ih =>
    intro store src
    have hcb : cbRaises env (process_received_email env store m.id).1 = false := by
      simp [cbRaises, h]
    by_cases hm : env.markWorks m.id = true
    · simp only [runCycleAux, hcb, Bool.false_eq_true, if_false, hm, if_true,
        List.filter_cons_of_pos, List.map_cons, List.length_cons]
      refine ⟨?_, ?_, ?_⟩
      · rw [(ih _ _).1]
      · rw [(ih _ _).2.1]; simp [hm]
      · exact (ih _ _).2.2
    · simp only [runCycleAux, hcb, Bool.false_eq_true, if_false, hm,
        List.length_cons]
      refine ⟨?_, ?_, ?_⟩
      · rw [(ih _ _).1]
      · rw [(ih _ _).2.1]; simp [hm]
      · exact (ih _ _).2.2

/-- C2 counterexample: with one unread message whose content fetch fails,
the cycle still marks it as read (consumed) while persisting nothing — the
message is silently lost, refuting "marked consumed only after successful
persistence". -/
theorem fetch_failure_still_marked_consumed :
    (runCycle c2env [] [⟨"m1", false⟩]).marked = ["m1"] ∧
    (runCycle c2env [] [⟨"m1", false⟩]).source = [⟨"m1", true⟩] ∧
    (runCycle c2env [] [⟨"m1", false⟩]).store = [] ∧
    (runCycle c2env [] [⟨"m1", false⟩]).results =
      [.err "could not fetch email content"] :=
  ⟨rfl, rfl, rfl, rfl⟩

/-- C2 (amended): in a cycle with no callback configured, the messages
marked consumed are exactly the fetched unread messages whose
mark-as-read call succeeds — independent of whether their content fetch or
persistence succeeded.  Marking follows the processing attempt in program
order but is not conditioned on successful persistence. -/
theorem marked_after_processing_regardless_of_persistence
    (env : RecvEnv) (store : List MObj) (src : List SourceMsg)
    (h : env.callbackRaises = none) :
    (runCycle env store src).marked =
      (((if env.listUnreadFails then [] else
          src.filter (fun m => !m.read)).filter
        (fun m => env.markWorks m.id)).map (·.id)) ∧
    (runCycle env store src).aborted = false :=
  ⟨(runCycleAux_no_callback env h _ store src).2.1,
    (runCycleAux_no_callback env h _ store src).2.2⟩

theorem marked_regardless_witness :
    (runCycle c2env [] [⟨"m1", false⟩]).marked = ["m1"] ∧
    (runCycle c2env [] [⟨"m1", false⟩]).aborted = false := by
  have h := marked_after_processing_regardless_of_persistence c2env []
    [⟨"m1", false⟩] rfl
  exact ⟨h.1.trans rfl, h.2⟩

/-- C4 counterexample: a raising per-message callback escapes to the
cycle-level `except`: with two unread messages, only the first is
processed (it is not even marked as read) and the second is never touched
— a per-message callback failure DOES abort the remainder of the cycle. -/
theorem callback_failure_aborts_cycle :
    (runCycle c4env [] [⟨"m1", false⟩, ⟨"m2", false⟩]).results.length = 1 ∧
    (runCycle c4env [] [⟨"m1", false⟩, ⟨"m2", false⟩]).aborted = true ∧
    (runCycle c4env [] [⟨"m1", false⟩, ⟨"m2", false⟩]).marked = [] :=
  ⟨rfl, rfl, rfl⟩

/-- C4 (amended): failures inside a message's own processing (content
fetch, normalization, persistence, attachment handling) are isolated —
with no callback configured, every fetched unread message of the cycle is
processed and yields its own per-message result, whatever failures the
environment injects, and the cycle is never aborted.  (Only an exception
escaping the per-message callback aborts the remainder of a cycle.) -/
theorem per_message_failures_isolated_without_callback
    (env : RecvEnv) (store : List MObj) (src : List SourceMsg)
    (h : env.callbackRaises = none) :
    (runCycle env store src).results.length =
      (if env.listUnreadFails then [] else
        src.filter (fun m => !m.read)).length ∧
    (runCycle env store src).aborted = false :=
  ⟨(runCycleAux_no_callback env h _ store src).1,
    (runCycleAux_no_callback env h _ store src).2.2⟩

theorem per_message_isolation_witness :
    (runCycle c2env [] [⟨"m1", false⟩, ⟨"m2", false⟩]).results.length = 2 ∧
    (runCycle c2env [] [⟨"m1", false⟩, ⟨"m2", false⟩]).aborted = false := by
  have h := per_message_failures_isolated_without_callback c2env []
    [⟨"m1", false⟩, ⟨"m2", false⟩] rfl
  exact ⟨h.1.trans rfl, h.2⟩

end ApiSmtp

